import Mathlib

/-!
Verification of the N2S efficiency-modeling calculation engine
(`apps-backup/impact-model/model.py` and `apps-backup/impact-model/config.py`).

The Python engine is shallowly embedded over `ℚ`: every numeric quantity in
the source is a Python float computed by exact field operations on small
decimal constants, which we model as exact rational arithmetic.  Python dicts
keyed by the seven fixed phases / initiatives become total functions on the
corresponding closed inductive types; the `maturity_levels` dict, whose keys
may genuinely be absent, becomes `Initiative → Option ℚ`; fallible engine
methods (which raise in Python) return `Except EngineError`.
-/

namespace N2S

/-- Phase: the 7 fixed ordered project-stage labels (`PHASE_ORDER` in config.py). -/
inductive Phase where
  | Discover
  | Plan
  | Design
  | Build
  | Test
  | Deploy
  | PostGoLive
deriving DecidableEq, Fintype

/-- Initiative: the 7 fixed efficiency levers (`INITIATIVE_FALLBACK` in config.py). -/
inductive Initiative where
  | ModernizationStudio
  | AIAutomation
  | N2SCARM
  | PreconfiguredEnvs
  | AutomatedTesting
  | EDCC
  | IntegrationCodeReuse
deriving DecidableEq, Fintype

/-- PHASE_ORDER from config.py: the display/iteration order of the 7 phases. -/
def PHASE_ORDER : List Phase :=
  [.Discover, .Plan, .Design, .Build, .Test, .Deploy, .PostGoLive]

/-- INITIATIVE_FALLBACK from config.py: the authoritative initiative list, in
the order used as the seed matrix row index. -/
def INITIATIVE_FALLBACK : List Initiative :=
  [.ModernizationStudio, .AIAutomation, .N2SCARM, .PreconfiguredEnvs,
   .AutomatedTesting, .EDCC, .IntegrationCodeReuse]

/-- DEFAULT_PHASE_ALLOCATION from config.py (percentages summing to 100). -/
def DEFAULT_PHASE_ALLOCATION : Phase → ℚ
  | .Discover => 5
  | .Plan => 10
  | .Design => 15
  | .Build => 25
  | .Test => 20
  | .Deploy => 10
  | .PostGoLive => 15

/-- calculate_baseline_hours from config.py:
`{phase: total_hours * (pct / 100.0) for phase, pct in allocation.items()}`. -/
def calculate_baseline_hours (total_hours : ℚ) (allocation : Phase → ℚ)
    (p : Phase) : ℚ :=
  total_hours * (allocation p / 100)

/-- The sample efficiency matrix of `_create_sample_matrix` in model.py,
written column-by-column exactly as the `sample_data` dict literal, each
column listing the 7 initiatives in `INITIATIVE_FALLBACK` order. -/
def sampleColumn : Phase → Initiative → ℚ
  | .Discover => fun i => match i with
    | .ModernizationStudio => -13
    | .AIAutomation => -10
    | .N2SCARM => -19
    | .PreconfiguredEnvs => -26
    | .AutomatedTesting => -6
    | .EDCC => -16
    | .IntegrationCodeReuse => -22
  | .Plan => fun i => match i with
    | .ModernizationStudio => -19
    | .AIAutomation => -16
    | .N2SCARM => -32
    | .PreconfiguredEnvs => -38
    | .AutomatedTesting => -10
    | .EDCC => -26
    | .IntegrationCodeReuse => -29
  | .Design => fun i => match i with
    | .ModernizationStudio => -32
    | .AIAutomation => -26
    | .N2SCARM => -45
    | .PreconfiguredEnvs => -51
    | .AutomatedTesting => -38
    | .EDCC => -35
    | .IntegrationCodeReuse => -42
  | .Build => fun i => match i with
    | .ModernizationStudio => -51
    | .AIAutomation => -77
    | .N2SCARM => -64
    | .PreconfiguredEnvs => -96
    | .AutomatedTesting => -128
    | .EDCC => -58
    | .IntegrationCodeReuse => -115
  | .Test => fun i => match i with
    | .ModernizationStudio => -128
    | .AIAutomation => -115
    | .N2SCARM => -102
    | .PreconfiguredEnvs => -77
    | .AutomatedTesting => -160
    | .EDCC => -64
    | .IntegrationCodeReuse => -179
  | .Deploy => fun i => match i with
    | .ModernizationStudio => -26
    | .AIAutomation => -51
    | .N2SCARM => -19
    | .PreconfiguredEnvs => -38
    | .AutomatedTesting => -32
    | .EDCC => -22
    | .IntegrationCodeReuse => -29
  | .PostGoLive => fun i => match i with
    | .ModernizationStudio => -96
    | .AIAutomation => -64
    | .N2SCARM => -77
    | .PreconfiguredEnvs => -115
    | .AutomatedTesting => -51
    | .EDCC => -58
    | .IntegrationCodeReuse => -90

/-- The seed Impact Matrix as a row (initiative) × column (phase) function,
i.e. `self.matrix_data` right after `_create_sample_matrix` runs. -/
def sampleMatrix (i : Initiative) (p : Phase) : ℚ := sampleColumn p i

/-- INDUSTRY_BENCHMARKS scalar fields from config.py.  The nested
`defect_fix_cost_multipliers` dict is never read by the engine and is omitted. -/
structure Benchmarks where
  test_automation_cost_reduction : ℚ
  quality_improvement : ℚ
  post_release_defect_reduction : ℚ
  testing_phase_reduction : ℚ
  manual_testing_reduction : ℚ
deriving DecidableEq

/-- The default INDUSTRY_BENCHMARKS values from config.py. -/
def INDUSTRY_BENCHMARKS : Benchmarks :=
  { test_automation_cost_reduction := 0.15
    quality_improvement := 0.20
    post_release_defect_reduction := 0.25
    testing_phase_reduction := 0.45
    manual_testing_reduction := 0.40 }

/-- The scenario-config dict as consumed by `apply_maturity_and_scenario`:
it reads `scenario_config['target_percentage']` and the nested
`scenario_config['current_maturity']['maturity_level']`, flattened here into
the two fields the engine actually uses. -/
structure ScenarioConfig where
  target_percentage : ℚ
  maturity_level : ℚ
deriving DecidableEq

/-- The maturity-scaling loop of `apply_maturity_and_scenario` (model.py
lines 85-91): an initiative present in the `maturity_levels` dict has its
seed row multiplied by `maturity / 100`; an absent initiative is untouched. -/
def maturityScaled (md : Initiative → Phase → ℚ)
    (maturity_levels : Initiative → Option ℚ) (i : Initiative) (p : Phase) : ℚ :=
  match maturity_levels i with
  | some m => md i p * (m / 100)
  | none => md i p

/-- The progressive-scaling factors of `apply_maturity_and_scenario`
(model.py lines 98-120), computed from target percentage and maturity level. -/
structure ScalingFactors where
  additional_factor : ℚ
  testing_boost : ℚ
  quality_boost : ℚ
deriving DecidableEq

/-- Tiered scaling-factor computation (model.py lines 98-120):
`base_intensity = T / 15`, `maturity_factor = L / 3`, then one of three tiers
chosen by the target percentage. -/
def scalingFactors (target_percentage maturity_level : ℚ) : ScalingFactors :=
  let base_intensity := target_percentage / 15
  let maturity_factor := maturity_level / 3
  if target_percentage ≤ 10 then
    { additional_factor := 0
      testing_boost := base_intensity * 0.2 * maturity_factor
      quality_boost := base_intensity * 0.15 * maturity_factor }
  else if target_percentage ≤ 20 then
    let progress := (target_percentage - 10) / 10
    { additional_factor := progress * 0.8 * maturity_factor
      testing_boost := base_intensity * (0.3 + progress * 0.2) * maturity_factor
      quality_boost := base_intensity * (0.2 + progress * 0.15) * maturity_factor }
  else
    let progress := min 1 ((target_percentage - 20) / 10)
    { additional_factor := (0.8 + progress * 0.7) * maturity_factor
      testing_boost := base_intensity * (0.5 + progress * 0.3) * maturity_factor
      quality_boost := base_intensity * (0.35 + progress * 0.25) * maturity_factor }

/-- The multiplier the enhancement block of `apply_maturity_and_scenario`
(model.py lines 122-138) applies to the column of phase `p`: the Test column
gets the testing boost when positive, and Design/Build/Test (plus Deploy when
`additional_factor > 0.5`) get the quality boost when positive, all gated by
`additional_factor > 0 or testing_boost > 0`. -/
def boostMultiplier (b : Benchmarks) (f : ScalingFactors) (p : Phase) : ℚ :=
  if 0 < f.additional_factor ∨ 0 < f.testing_boost then
    (if 0 < f.testing_boost ∧ p = Phase.Test then
      1 + b.testing_phase_reduction * f.testing_boost
    else 1) *
    (if 0 < f.quality_boost ∧
        (p = Phase.Design ∨ p = Phase.Build ∨ p = Phase.Test ∨
         (1/2 < f.additional_factor ∧ p = Phase.Deploy)) then
      1 + b.quality_improvement * f.quality_boost
    else 1)
  else 1

/-- Column sum of an initiative × phase matrix over the seed row index
(`effective_matrix[phase].sum()` in pandas terms). -/
def colSum (m : Initiative → Phase → ℚ) (p : Phase) : ℚ :=
  (INITIATIVE_FALLBACK.map (fun i => m i p)).sum

/-- Sum of absolute values down the column of phase `p`. -/
def absColSum (m : Initiative → Phase → ℚ) (p : Phase) : ℚ :=
  (INITIATIVE_FALLBACK.map (fun i => |m i p|)).sum

/-- The `conservative_caps` dict of model.py lines 143-146. -/
def conservative_caps : Phase → ℚ
  | .Discover => 0.35
  | .Plan => 0.40
  | .Design => 0.45
  | .Build => 0.50
  | .Test => 0.60
  | .Deploy => 0.45
  | .PostGoLive => 0.65

/-- The per-column scale factor of the conservative-capping loop (model.py
lines 148-156).  Note the source computes `max_savings` from the HARDCODED
reference `calculate_baseline_hours(17054, DEFAULT_PHASE_ALLOCATION)`, not
from the caller-supplied total hours / allocation. -/
def capScale (m : Initiative → Phase → ℚ) (p : Phase) : ℚ :=
  let max_savings :=
    calculate_baseline_hours 17054 DEFAULT_PHASE_ALLOCATION p * conservative_caps p
  let total_savings := |colSum m p|
  if max_savings < total_savings then max_savings / total_savings else 1

/-- The effective matrix after maturity scaling and the boost block, before
the conservative-capping block. -/
def boostedMatrix (md : Initiative → Phase → ℚ)
    (maturity_levels : Initiative → Option ℚ) (cfg : ScenarioConfig)
    (b : Benchmarks) (i : Initiative) (p : Phase) : ℚ :=
  maturityScaled md maturity_levels i p *
    boostMultiplier b (scalingFactors cfg.target_percentage cfg.maturity_level) p

/-- The pure body of `apply_maturity_and_scenario` (model.py lines 80-158),
acting on a given seed matrix `md`: maturity scaling, then the boost block,
then (only when `target_percentage > 20 and current_level < 4`) the
conservative-capping block, which rescales each phase column independently. -/
def applyCore (md : Initiative → Phase → ℚ)
    (maturity_levels : Initiative → Option ℚ) (cfg : ScenarioConfig)
    (b : Benchmarks) (i : Initiative) (p : Phase) : ℚ :=
  if 20 < cfg.target_percentage ∧ cfg.maturity_level < 4 then
    boostedMatrix md maturity_levels cfg b i p *
      capScale (boostedMatrix md maturity_levels cfg b) p
  else
    boostedMatrix md maturity_levels cfg b i p

/-!
Feasibility evaluator (config.py).
-/

/-- The per-level maturity data of `MATURITY_LEVELS` in config.py that the
engine reads: display name, the `savings_potential_range` pair, and the
`typical_savings` scalar.  The prose characteristics dicts are display-only
and omitted. -/
structure MaturityLevelInfo where
  name : String
  savings_min : ℚ
  savings_max : ℚ
  typical_savings : ℚ
deriving DecidableEq

/-- MATURITY_LEVELS from config.py.  The Python dict has keys 1-5 only; the
engine never accesses another key (a miss would be a KeyError), so the
out-of-range branch is arbitrary and unreachable in every modeled call. -/
def MATURITY_LEVELS : ℕ → MaturityLevelInfo
  | 1 => { name := "Ad-hoc/Manual", savings_min := 5, savings_max := 8,
           typical_savings := 6.5 }
  | 2 => { name := "Repeatable", savings_min := 8, savings_max := 12,
           typical_savings := 10 }
  | 3 => { name := "Defined", savings_min := 12, savings_max := 18,
           typical_savings := 15 }
  | 4 => { name := "Managed", savings_min := 18, savings_max := 25,
           typical_savings := 21.5 }
  | _ => { name := "Optimizing", savings_min := 25, savings_max := 30,
           typical_savings := 27.5 }

/-- The fields of the `assess_current_maturity` output dict that
`calculate_target_feasibility` and `_generate_recommendations` read. -/
structure CurrentMaturityInfo where
  maturity_level : ℕ
  current_savings_potential : ℚ
  improvement_areas : List String
deriving DecidableEq

/-- The `_generate_recommendations` helper of config.py. -/
def generate_recommendations (cm : CurrentMaturityInfo) (target_level : ℕ) :
    List String :=
  if target_level ≤ cm.maturity_level then
    ["Your current maturity level is sufficient for this target"]
  else
    (if cm.improvement_areas.contains "test_automation_coverage" then
      ["Increase automated test coverage to 60%+ (current focus area)"]
    else []) ++
    (if cm.improvement_areas.contains "ci_cd_maturity" then
      ["Implement full CI/CD pipeline with automated deployments"]
    else []) ++
    (if cm.improvement_areas.contains "code_reuse_level" then
      ["Develop reusable component library (target 40%+ reuse)"]
    else []) ++
    (if 4 ≤ target_level then
      ["Implement Infrastructure as Code for environment management",
       "Add comprehensive monitoring and measurement systems"]
    else []) ++
    (if 5 ≤ target_level then
      ["Focus on continuous optimization and AI-assisted processes"]
    else [])

/-- The infeasible-branch scan of `calculate_target_feasibility`: walk levels
1..5 in order and return the first whose `savings_potential_range` upper
bound plus the initiative boost meets the target, defaulting to 5. -/
def required_level_scan (target_savings initiative_boost : ℚ) : ℕ :=
  match (List.range' 1 5).find?
      (fun level => decide (target_savings ≤ (MATURITY_LEVELS level).savings_max
        + initiative_boost)) with
  | some level => level
  | none => 5

/-- The result dict of `calculate_target_feasibility`. -/
structure FeasibilityResult where
  feasible : Bool
  current_potential : ℚ
  total_potential_with_initiatives : ℚ
  gap : ℚ
  required_maturity_level : ℕ
  required_maturity_name : String
  recommendations : List String
deriving DecidableEq

/-- calculate_target_feasibility from config.py (lines 415-457). -/
def calculate_target_feasibility (current_maturity : CurrentMaturityInfo)
    (target_savings : ℚ) (selected_initiatives : List Initiative) :
    FeasibilityResult :=
  let current_potential := current_maturity.current_savings_potential
  let initiative_boost := (selected_initiatives.length : ℚ) * 1.5
  let total_potential := current_potential + initiative_boost
  let feasible := decide (target_savings ≤ total_potential)
  let required_level :=
    if feasible then current_maturity.maturity_level
    else required_level_scan target_savings initiative_boost
  { feasible := feasible
    current_potential := current_potential
    total_potential_with_initiatives := total_potential
    gap := max 0 (target_savings - total_potential)
    required_maturity_level := required_level
    required_maturity_name := (MATURITY_LEVELS required_level).name
    recommendations := generate_recommendations current_maturity required_level }

/-!
Phase projector and cost engine (model.py).
-/

/-- calculate_phase_hours from model.py (lines 160-178): baseline hours from
the caller allocation, modeled hours floored at zero after adding each
phase's effective-delta column sum.  Returns (baseline, modeled). -/
def calculate_phase_hours (total_hours : ℚ) (phase_allocation : Phase → ℚ)
    (effective_deltas : Initiative → Phase → ℚ) :
    (Phase → ℚ) × (Phase → ℚ) :=
  let baseline_hours := calculate_baseline_hours total_hours phase_allocation
  (baseline_hours,
   fun p => max 0 (baseline_hours p + colSum effective_deltas p))

/-- A cost-avoidance profile from `COST_AVOIDANCE_OPTIONS` in config.py:
the two numeric fields `calculate_costs_and_savings` reads. -/
structure CostAvoidanceConfig where
  multiplier : ℚ
  ongoing_factor : ℚ
deriving DecidableEq

/-- The result dict of `calculate_costs_and_savings`. -/
structure CostResults where
  baseline_cost : Phase → ℚ
  modeled_cost : Phase → ℚ
  savings : Phase → ℚ
  avoidance : Phase → ℚ

/-- calculate_costs_and_savings from model.py (lines 180-221).  Avoidance is
computed only when `include_cost_avoidance` is set and a config dict is
given, and only for the Post Go-Live phase, from the summed savings of the
other six phases; every other case yields 0. -/
def calculate_costs_and_savings (baseline_hours modeled_hours : Phase → ℚ)
    (blended_rate : ℚ) (include_cost_avoidance : Bool)
    (cost_avoidance_config : Option CostAvoidanceConfig) : CostResults :=
  let baseline_cost := fun p => baseline_hours p * blended_rate
  let modeled_cost := fun p => modeled_hours p * blended_rate
  let savings := fun p => baseline_cost p - modeled_cost p
  let avoidance := fun p =>
    match include_cost_avoidance, cost_avoidance_config with
    | true, some c =>
      if p = Phase.PostGoLive then
        let dev_savings :=
          ((PHASE_ORDER.filter (fun q => q ≠ Phase.PostGoLive)).map savings).sum
        max 0 (dev_savings * c.ongoing_factor) * c.multiplier
      else 0
    | _, _ => 0
  { baseline_cost := baseline_cost
    modeled_cost := modeled_cost
    savings := savings
    avoidance := avoidance }

/-- calculate_risk_adjusted_hours from model.py (lines 223-235): a phase
present in the risk-weights dict has its modeled hours multiplied by its
weight; an absent phase passes through. -/
def calculate_risk_adjusted_hours (modeled_hours : Phase → ℚ)
    (risk_weights : Phase → Option ℚ) (p : Phase) : ℚ :=
  match risk_weights p with
  | some w => modeled_hours p * w
  | none => modeled_hours p

/-!
The stateful engine object and its error behavior (model.py).
-/

/-- The exceptions the engine can raise on the modeled paths: the explicit
`ValueError` guarding an unloaded engine in `apply_maturity_and_scenario`,
the pandas `AttributeError` from dereferencing a `None` matrix, and the
pandas `KeyError` from sorting an empty impact table on a missing column. -/
inductive EngineError where
  | uninitializedEngine : String → EngineError
  | attributeError : String → EngineError
  | keyError : String → EngineError
deriving DecidableEq

/-- Whether an engine result is the uninitialized-engine error (the
`ValueError` of model.py line 78). -/
def is_uninitialized_error {α : Type} : Except EngineError α → Bool
  | .error (.uninitializedEngine _) => true
  | _ => false

/-- Whether an engine call raised (any) error. -/
def is_error_result {α : Type} : Except EngineError α → Bool
  | .error _ => true
  | .ok _ => false

/-- The `N2SEfficiencyModel` object state: `matrix_data` (None before
loading) and the `loaded` flag. -/
structure N2SEfficiencyModel where
  matrix_data : Option (Initiative → Phase → ℚ)
  loaded : Bool

/-- `N2SEfficiencyModel.__init__`: `matrix_data = None`, `loaded = False`. -/
def N2SEfficiencyModel.init : N2SEfficiencyModel :=
  { matrix_data := none, loaded := false }

/-- `create_sample_data` / `_create_sample_matrix`: install the sample seed
matrix and set `loaded`. -/
def N2SEfficiencyModel.create_sample_data (m : N2SEfficiencyModel) :
    N2SEfficiencyModel :=
  { m with matrix_data := some sampleMatrix, loaded := true }

/-- The `apply_maturity_and_scenario` method (model.py lines 60-158) as a
state transformer: it first raises the uninitialized-engine `ValueError`
when `loaded` is false, resolves `None` benchmarks to the defaults, and
otherwise computes `applyCore` on a copy of the seed matrix, leaving the
engine state unchanged (the source mutates only `matrix_data.copy()`). -/
def N2SEfficiencyModel.apply_maturity_and_scenario (m : N2SEfficiencyModel)
    (maturity_levels : Initiative → Option ℚ) (scenario_config : ScenarioConfig)
    (industry_benchmarks : Option Benchmarks) :
    Except EngineError ((Initiative → Phase → ℚ) × N2SEfficiencyModel) :=
  if m.loaded = false then
    .error (.uninitializedEngine
      "Matrix data not loaded. Call create_sample_data() first.")
  else
    match m.matrix_data with
    | some md =>
      .ok (applyCore md maturity_levels scenario_config
            (industry_benchmarks.getD INDUSTRY_BENCHMARKS), m)
    | none => .error (.attributeError "NoneType object has no attribute copy")

/-- One row of the initiative impact table (the dict literal of model.py
lines 333-343). -/
structure ImpactRow where
  initiative : Initiative
  maturity_pct : ℚ
  baseline_hour_delta : ℚ
  effective_hour_delta : ℚ
  development_hours : ℚ
  post_golive_hours : ℚ
  development_cost_impact : ℚ
  post_golive_cost_impact : ℚ
  total_financial_impact : ℚ
deriving DecidableEq

/-- The `dev_phases` list of model.py line 316. -/
def DEV_PHASES : List Phase :=
  [.Discover, .Plan, .Design, .Build, .Test, .Deploy]

/-- The initiatives passing the `maturity_levels.get(initiative, 0) > 0`
guard of model.py line 314, in seed-matrix row order. -/
def qualifying_initiatives (maturity_levels : Initiative → Option ℚ) :
    List Initiative :=
  INITIATIVE_FALLBACK.filter (fun i => decide (0 < (maturity_levels i).getD 0))

/-- The loop body of `generate_initiative_impact_table` (model.py lines
315-343) for one qualifying initiative. -/
def impactRow (md effective_deltas : Initiative → Phase → ℚ)
    (maturity_levels : Initiative → Option ℚ) (blended_rate : ℚ)
    (include_cost_avoidance : Bool)
    (cost_avoidance_config : Option CostAvoidanceConfig) (i : Initiative) :
    ImpactRow :=
  let dev_hours := (DEV_PHASES.map (fun p => effective_deltas i p)).sum
  let post_golive_hours := effective_deltas i Phase.PostGoLive
  let dev_cost_impact := dev_hours * blended_rate
  let post_golive_cost_base := post_golive_hours * blended_rate
  let post_golive_cost_impact :=
    match include_cost_avoidance, cost_avoidance_config with
    | true, some c =>
      if dev_cost_impact < 0 then
        post_golive_cost_base -
          |dev_cost_impact| * c.ongoing_factor * c.multiplier
      else post_golive_cost_base
    | _, _ => post_golive_cost_base
  { initiative := i
    maturity_pct := (maturity_levels i).getD 0
    baseline_hour_delta := (PHASE_ORDER.map (fun p => md i p)).sum
    effective_hour_delta := (PHASE_ORDER.map (fun p => effective_deltas i p)).sum
    development_hours := dev_hours
    post_golive_hours := post_golive_hours
    development_cost_impact := dev_cost_impact
    post_golive_cost_impact := post_golive_cost_impact
    total_financial_impact := dev_cost_impact + post_golive_cost_impact }

/-- The unsorted impact rows of `generate_initiative_impact_table`. -/
def initiative_impact_rows (md effective_deltas : Initiative → Phase → ℚ)
    (maturity_levels : Initiative → Option ℚ) (blended_rate : ℚ)
    (include_cost_avoidance : Bool)
    (cost_avoidance_config : Option CostAvoidanceConfig) : List ImpactRow :=
  (qualifying_initiatives maturity_levels).map
    (impactRow md effective_deltas maturity_levels blended_rate
      include_cost_avoidance cost_avoidance_config)

/-- Insert a row into a list sorted ascending by total financial impact. -/
def insertRowByImpact (r : ImpactRow) : List ImpactRow → List ImpactRow
  | [] => [r]
  | x :: xs =>
    if r.total_financial_impact ≤ x.total_financial_impact then r :: x :: xs
    else x :: insertRowByImpact r xs

/-- The final `df.sort_values('Total Financial Impact', ascending=True)` of
model.py line 346, as an insertion sort on the total-impact key. -/
def sortRowsByImpact : List ImpactRow → List ImpactRow
  | [] => []
  | x :: xs => insertRowByImpact x (sortRowsByImpact xs)

/-- The `generate_initiative_impact_table` method (model.py lines 301-346).
It performs NO loaded-check: with `matrix_data = None` the first qualifying
initiative dereferences `self.matrix_data.loc` (AttributeError), and with no
qualifying initiative the final `sort_values` on an empty frame raises a
KeyError — the same KeyError a loaded engine hits when no initiative has
positive maturity.  (The iteration order over `effective_deltas.index` is
modeled as the engine row order `INITIATIVE_FALLBACK`, which is the index of
every matrix the engine itself produces.) -/
def N2SEfficiencyModel.generate_initiative_impact_table
    (m : N2SEfficiencyModel) (effective_deltas : Initiative → Phase → ℚ)
    (maturity_levels : Initiative → Option ℚ) (blended_rate : ℚ)
    (include_cost_avoidance : Bool)
    (cost_avoidance_config : Option CostAvoidanceConfig) :
    Except EngineError (List ImpactRow) :=
  match m.matrix_data with
  | none =>
    if (qualifying_initiatives maturity_levels).isEmpty then
      .error (.keyError "Total Financial Impact")
    else
      .error (.attributeError "NoneType object has no attribute loc")
  | some md =>
    let rows := initiative_impact_rows md effective_deltas maturity_levels
      blended_rate include_cost_avoidance cost_avoidance_config
    if rows.isEmpty then .error (.keyError "Total Financial Impact")
    else .ok (sortRowsByImpact rows)

/-!
Helper lemmas.
-/

/-- Summing a pointwise-nonpositive map gives a nonpositive sum. -/
theorem sum_map_nonpos {α : Type} (l : List α) (f : α → ℚ)
    (h : ∀ i ∈ l, f i ≤ 0) : (l.map f).sum ≤ 0 := by
  induction l with
  | nil => simp
  | cons a l ih =>
    simp only [List.map_cons, List.sum_cons]
    have ha := h a (List.mem_cons_self a l)
    have hl := ih (fun i hi => h i (List.mem_cons_of_mem a hi))
    linarith

/-- A constant right factor distributes out of a mapped sum. -/
theorem sum_map_mul_right_const {α : Type} (l : List α) (f : α → ℚ) (c : ℚ) :
    (l.map (fun i => f i * c)).sum = (l.map f).sum * c := by
  induction l with
  | nil => simp
  | cons a l ih => simp [List.map_cons, List.sum_cons, ih, add_mul]

/-- For a pointwise-nonpositive map, the sum of absolute values is the
negated sum. -/
theorem sum_map_abs_of_nonpos {α : Type} (l : List α) (f : α → ℚ)
    (h : ∀ i ∈ l, f i ≤ 0) : (l.map (fun i => |f i|)).sum = -(l.map f).sum := by
  induction l with
  | nil => simp
  | cons a l ih =>
    simp only [List.map_cons, List.sum_cons]
    rw [ih (fun i hi => h i (List.mem_cons_of_mem a hi)),
      abs_of_nonpos (h a (List.mem_cons_self a l))]
    ring

/-- Every cell of the seed sample matrix is nonpositive. -/
theorem sampleMatrix_nonpos (i : Initiative) (p : Phase) :
    sampleMatrix i p ≤ 0 := by
  cases i <;> cases p <;> norm_num [sampleMatrix, sampleColumn]

/-- Maturity scaling with nonnegative maturity percentages keeps the seed
matrix cells nonpositive. -/
theorem maturityScaled_sample_nonpos (ml : Initiative → Option ℚ)
    (hml : ∀ i m, ml i = some m → 0 ≤ m) (i : Initiative) (p : Phase) :
    maturityScaled sampleMatrix ml i p ≤ 0 := by
  unfold maturityScaled
  cases h : ml i with
  | none => exact sampleMatrix_nonpos i p
  | some m =>
    have hm : (0:ℚ) ≤ m / 100 := by
      have := hml i m h
      positivity
    exact mul_nonpos_of_nonpos_of_nonneg (sampleMatrix_nonpos i p) hm

/-- With nonnegative benchmark fractions, every column multiplier of the
boost block is nonnegative (whatever the scaling factors are, since each
boost factor is only applied under a positivity guard). -/
theorem boostMultiplier_nonneg (b : Benchmarks) (f : ScalingFactors) (p : Phase)
    (hb1 : 0 ≤ b.testing_phase_reduction) (hb2 : 0 ≤ b.quality_improvement) :
    0 ≤ boostMultiplier b f p := by
  unfold boostMultiplier
  split_ifs with h1 h2 h3 h4
  · nlinarith [mul_nonneg hb1 (le_of_lt h2.1), mul_nonneg hb2 (le_of_lt h3.1)]
  · nlinarith [mul_nonneg hb1 (le_of_lt h2.1)]
  · nlinarith [mul_nonneg hb2 (le_of_lt h4.1)]
  · norm_num
  · norm_num

/-- Cells of the boosted matrix stay nonpositive. -/
theorem boostedMatrix_sample_nonpos (ml : Initiative → Option ℚ)
    (cfg : ScenarioConfig) (b : Benchmarks)
    (hml : ∀ i m, ml i = some m → 0 ≤ m)
    (hb1 : 0 ≤ b.testing_phase_reduction) (hb2 : 0 ≤ b.quality_improvement)
    (i : Initiative) (p : Phase) :
    boostedMatrix sampleMatrix ml cfg b i p ≤ 0 :=
  mul_nonpos_of_nonpos_of_nonneg (maturityScaled_sample_nonpos ml hml i p)
    (boostMultiplier_nonneg b _ p hb1 hb2)

/-- The hardcoded reference cap bound of the conservative-capping block is
positive for every phase. -/
theorem reference_cap_pos (p : Phase) :
    0 < calculate_baseline_hours 17054 DEFAULT_PHASE_ALLOCATION p *
      conservative_caps p := by
  cases p <;>
    norm_num [calculate_baseline_hours, DEFAULT_PHASE_ALLOCATION,
      conservative_caps]

/-- The conservative-capping scale factor is always nonnegative. -/
theorem capScale_nonneg (m : Initiative → Phase → ℚ) (p : Phase) :
    0 ≤ capScale m p := by
  simp only [capScale]
  split_ifs with h
  · exact div_nonneg (reference_cap_pos p).le (abs_nonneg _)
  · norm_num

/-- Cells of the full effective-delta matrix stay nonpositive. -/
theorem applyCore_sample_nonpos (ml : Initiative → Option ℚ)
    (cfg : ScenarioConfig) (b : Benchmarks)
    (hml : ∀ i m, ml i = some m → 0 ≤ m)
    (hb1 : 0 ≤ b.testing_phase_reduction) (hb2 : 0 ≤ b.quality_improvement)
    (i : Initiative) (p : Phase) :
    applyCore sampleMatrix ml cfg b i p ≤ 0 := by
  unfold applyCore
  have hbst := boostedMatrix_sample_nonpos ml cfg b hml hb1 hb2 i p
  split_ifs with h
  · exact mul_nonpos_of_nonpos_of_nonneg hbst (capScale_nonneg _ p)
  · exact hbst

/-- After the capping step, the absolute column sum of any pointwise
nonpositive matrix is bounded by the hardcoded reference cap. -/
theorem capped_column_bounded (m : Initiative → Phase → ℚ) (p : Phase)
    (hm : ∀ i, m i p ≤ 0) :
    (INITIATIVE_FALLBACK.map (fun i => |m i p * capScale m p|)).sum
      ≤ calculate_baseline_hours 17054 DEFAULT_PHASE_ALLOCATION p *
        conservative_caps p := by
  have hM := reference_cap_pos p
  have hs : 0 ≤ capScale m p := capScale_nonneg m p
  have hS : colSum m p ≤ 0 :=
    sum_map_nonpos INITIATIVE_FALLBACK (fun i => m i p) (fun i _ => hm i)
  have h1 : (INITIATIVE_FALLBACK.map (fun i => |m i p * capScale m p|)).sum
      = |colSum m p| * capScale m p := by
    calc (INITIATIVE_FALLBACK.map (fun i => |m i p * capScale m p|)).sum
        = (INITIATIVE_FALLBACK.map (fun i => |m i p| * capScale m p)).sum := by
          simp only [abs_mul, abs_of_nonneg hs]
      _ = (INITIATIVE_FALLBACK.map (fun i => |m i p|)).sum * capScale m p :=
          sum_map_mul_right_const INITIATIVE_FALLBACK (fun i => |m i p|) _
      _ = -(colSum m p) * capScale m p := by
          rw [sum_map_abs_of_nonpos INITIATIVE_FALLBACK (fun i => m i p)
            (fun i _ => hm i)]
          rfl
      _ = |colSum m p| * capScale m p := by rw [abs_of_nonpos hS]
  rw [h1]
  simp only [capScale]
  split_ifs with hc
  · have ht : |colSum m p| ≠ 0 := by
      have : (0:ℚ) < |colSum m p| := lt_trans hM hc
      exact ne_of_gt this
    rw [mul_comm, div_mul_cancel₀ _ ht]
  · have := abs_nonneg (colSum m p)
    nlinarith [not_lt.mp hc]

/-- Inserting into the impact-sorted list only adds the inserted row. -/
theorem mem_insertRowByImpact {r x : ImpactRow} {l : List ImpactRow}
    (hx : x ∈ insertRowByImpact r l) : x = r ∨ x ∈ l := by
  induction l with
  | nil =>
    simp only [insertRowByImpact, List.mem_singleton] at hx
    exact Or.inl hx
  | cons a l ih =>
    unfold insertRowByImpact at hx
    split_ifs at hx with hc
    · rcases List.mem_cons.mp hx with h1 | h2
      · exact Or.inl h1
      · exact Or.inr h2
    · rcases List.mem_cons.mp hx with h1 | h2
      · exact Or.inr (List.mem_cons.mpr (Or.inl h1))
      · rcases ih h2 with h3 | h4
        · exact Or.inl h3
        · exact Or.inr (List.mem_cons.mpr (Or.inr h4))

/-- Sorting the impact table does not add rows. -/
theorem mem_sortRowsByImpact {x : ImpactRow} {l : List ImpactRow}
    (hx : x ∈ sortRowsByImpact l) : x ∈ l := by
  induction l with
  | nil => simp [sortRowsByImpact] at hx
  | cons a l ih =>
    unfold sortRowsByImpact at hx
    rcases mem_insertRowByImpact hx with h1 | h2
    · exact List.mem_cons.mpr (Or.inl h1)
    · exact List.mem_cons.mpr (Or.inr (ih h2))

/-- Closed form of the tiered testing boost, with the structure projection
pushed through the tier split. -/
theorem testing_boost_eq (T L : ℚ) :
    (scalingFactors T L).testing_boost =
      if T ≤ 10 then T / 15 * 0.2 * (L / 3)
      else if T ≤ 20 then T / 15 * (0.3 + (T - 10) / 10 * 0.2) * (L / 3)
      else T / 15 * (0.5 + min 1 ((T - 20) / 10) * 0.3) * (L / 3) := by
  unfold scalingFactors
  split_ifs <;> rfl

/-!
Claim theorems.
-/

/-- C4: for every fixed maturity level L ≥ 1, the magnitude of the tiered
testing boost is non-decreasing in the target percentage on 10 ≤ T ≤ 20,
including across the tier boundary at T = 10. -/
theorem C4_testing_boost_monotone (L T1 T2 : ℚ) (hL : 1 ≤ L)
    (h1 : 10 ≤ T1) (h12 : T1 ≤ T2) (h2 : T2 ≤ 20) :
    |(scalingFactors T1 L).testing_boost| ≤
      |(scalingFactors T2 L).testing_boost| := by
  have hL0 : (0:ℚ) ≤ L := by linarith
  rw [testing_boost_eq, testing_boost_eq]
  rcases le_or_lt T1 10 with hc | hc
  · have hT1 : T1 = 10 := le_antisymm hc h1
    rcases le_or_lt T2 10 with hd | hd
    · have hT2 : T2 = 10 := le_antisymm hd (hT1 ▸ h12)
      rw [hT1, hT2]
    · rw [if_pos hc, if_neg (not_le.mpr hd), if_pos h2, hT1]
      have e1 : (0:ℚ) ≤ 10 / 15 * 0.2 * (L / 3) := by positivity
      have hin : (0:ℚ) ≤ 0.3 + (T2 - 10) / 10 * 0.2 := by linarith
      have e2 : (0:ℚ) ≤ T2 / 15 * (0.3 + (T2 - 10) / 10 * 0.2) * (L / 3) := by
        have h20 : (0:ℚ) ≤ T2 := by linarith
        have := mul_nonneg (mul_nonneg (by positivity : (0:ℚ) ≤ T2 / 15) hin)
          (by positivity : (0:ℚ) ≤ L / 3)
        linarith
      rw [abs_of_nonneg e1, abs_of_nonneg e2]
      nlinarith [mul_nonneg hL0 (sub_nonneg.mpr (le_of_lt hd))]
  · have hc2 : T1 ≤ 20 := le_trans h12 h2
    have hd : (10:ℚ) < T2 := lt_of_lt_of_le hc h12
    rw [if_neg (not_le.mpr hc), if_pos hc2, if_neg (not_le.mpr hd), if_pos h2]
    have hin1 : (0:ℚ) ≤ 0.3 + (T1 - 10) / 10 * 0.2 := by linarith
    have hin2 : (0:ℚ) ≤ 0.3 + (T2 - 10) / 10 * 0.2 := by linarith
    have e1 : (0:ℚ) ≤ T1 / 15 * (0.3 + (T1 - 10) / 10 * 0.2) * (L / 3) := by
      have := mul_nonneg (mul_nonneg
        (by positivity : (0:ℚ) ≤ T1 / 15) hin1) (by positivity : (0:ℚ) ≤ L / 3)
      linarith
    have e2 : (0:ℚ) ≤ T2 / 15 * (0.3 + (T2 - 10) / 10 * 0.2) * (L / 3) := by
      have := mul_nonneg (mul_nonneg
        (by positivity : (0:ℚ) ≤ T2 / 15) hin2) (by positivity : (0:ℚ) ≤ L / 3)
      linarith
    rw [abs_of_nonneg e1, abs_of_nonneg e2]
    nlinarith [mul_nonneg (sub_nonneg.mpr h12) hL0,
      mul_nonneg (mul_nonneg (sub_nonneg.mpr h12) hL0)
        (by linarith : (0:ℚ) ≤ T2 + T1)]

/-- C4 witness: the monotonicity theorem applied at L = 2, T1 = 12, T2 = 18. -/
theorem C4_testing_boost_monotone_witness :
    (1:ℚ) ≤ 2 ∧ (10:ℚ) ≤ 12 ∧ (12:ℚ) ≤ 18 ∧ (18:ℚ) ≤ 20 ∧
    |(scalingFactors 12 2).testing_boost| ≤ |(scalingFactors 18 2).testing_boost| :=
  ⟨by norm_num, by norm_num, by norm_num, by norm_num,
   C4_testing_boost_monotone 2 12 18 (by norm_num) (by norm_num) (by norm_num)
     (by norm_num)⟩

/-- C5: the cost engine assigns zero avoidance to every phase other than
Post Go-Live, and with avoidance enabled and a profile given the Post
Go-Live avoidance is max(0, dev_savings × ongoing_factor) × multiplier,
where dev_savings sums (baseline − modeled) cost over the other six phases. -/
theorem C5_avoidance_only_post_golive (baseline_hours modeled_hours : Phase → ℚ)
    (blended_rate : ℚ) (inc : Bool) (ca : Option CostAvoidanceConfig) :
    (∀ p, p ≠ Phase.PostGoLive →
      (calculate_costs_and_savings baseline_hours modeled_hours blended_rate
        inc ca).avoidance p = 0)
    ∧ (∀ c, inc = true → ca = some c →
      (calculate_costs_and_savings baseline_hours modeled_hours blended_rate
        inc ca).avoidance Phase.PostGoLive
        = max 0 (((PHASE_ORDER.filter (fun q => q ≠ Phase.PostGoLive)).map
            (fun q => baseline_hours q * blended_rate -
              modeled_hours q * blended_rate)).sum * c.ongoing_factor) *
          c.multiplier) := by
  constructor
  · intro p hp
    unfold calculate_costs_and_savings
    cases inc <;> cases ca <;> simp [hp]
  · intro c hinc hca
    subst hinc
    subst hca
    unfold calculate_costs_and_savings
    simp

/-- C5 witness: the avoidance characterization applied to one concrete
cost-engine call (Moderate profile, rate 100). -/
theorem C5_avoidance_only_post_golive_witness :
    (∀ p, p ≠ Phase.PostGoLive →
      (calculate_costs_and_savings (fun _ => 100) (fun _ => 90) 100 true
        (some ⟨2.5, 0.8⟩)).avoidance p = 0)
    ∧ (true = true ∧ (some (⟨2.5, 0.8⟩ : CostAvoidanceConfig)
        = some (⟨2.5, 0.8⟩ : CostAvoidanceConfig))
      ∧ (calculate_costs_and_savings (fun _ => 100) (fun _ => 90) 100 true
          (some ⟨2.5, 0.8⟩)).avoidance Phase.PostGoLive
        = max 0 (((PHASE_ORDER.filter (fun q => q ≠ Phase.PostGoLive)).map
            (fun _ => (100:ℚ) * 100 - 90 * 100)).sum * (0.8:ℚ)) * 2.5) :=
  ⟨(C5_avoidance_only_post_golive (fun _ => 100) (fun _ => 90) 100 true
      (some ⟨2.5, 0.8⟩)).1,
   rfl, rfl,
   (C5_avoidance_only_post_golive (fun _ => 100) (fun _ => 90) 100 true
      (some ⟨2.5, 0.8⟩)).2 ⟨2.5, 0.8⟩ rfl rfl⟩

/-- C6: an initiative mapped to maturity 0 contributes an exactly zero row
to the effective delta matrix, for every scenario config and benchmarks. -/
theorem C6_zero_maturity_zero_row (ml : Initiative → Option ℚ)
    (cfg : ScenarioConfig) (b : Benchmarks) (i : Initiative)
    (h : ml i = some 0) :
    ∀ p, applyCore sampleMatrix ml cfg b i p = 0 := by
  intro p
  have h0 : boostedMatrix sampleMatrix ml cfg b i p = 0 := by
    unfold boostedMatrix maturityScaled
    rw [h]
    norm_num
  unfold applyCore
  split_ifs with hcond
  · rw [h0, zero_mul]
  · exact h0

/-- C6 witness: the zero-row theorem at a concrete maturity mapping that
sets Automated Testing to 0 and everything else to 50. -/
theorem C6_zero_maturity_zero_row_witness :
    ((fun j => if j = Initiative.AutomatedTesting then some (0:ℚ) else some 50)
        Initiative.AutomatedTesting = some 0)
    ∧ ∀ p, applyCore sampleMatrix
        (fun j => if j = Initiative.AutomatedTesting then some (0:ℚ) else some 50)
        ⟨30, 2⟩ INDUSTRY_BENCHMARKS Initiative.AutomatedTesting p = 0 :=
  ⟨rfl, C6_zero_maturity_zero_row _ ⟨30, 2⟩ INDUSTRY_BENCHMARKS
    Initiative.AutomatedTesting rfl⟩

/-- C7: the feasibility verdict is exactly the comparison of the target
against the current savings potential plus 1.5 percentage points per
selected initiative, and a feasible verdict forces a zero gap. -/
theorem C7_feasibility_iff (cm : CurrentMaturityInfo) (target_savings : ℚ)
    (selected_initiatives : List Initiative) :
    ((calculate_target_feasibility cm target_savings
        selected_initiatives).feasible = true ↔
      target_savings ≤ cm.current_savings_potential +
        1.5 * (selected_initiatives.length : ℚ))
    ∧ ((calculate_target_feasibility cm target_savings
        selected_initiatives).feasible = true →
      (calculate_target_feasibility cm target_savings
        selected_initiatives).gap = 0) := by
  unfold calculate_target_feasibility
  simp only [decide_eq_true_eq]
  constructor
  · constructor
    · intro h
      linarith
    · intro h
      linarith
  · intro h
    rw [max_eq_left]
    linarith

/-- C7 witness: feasibility at potential 10, target 5, no initiatives. -/
theorem C7_feasibility_iff_witness :
    ((calculate_target_feasibility ⟨2, 10, []⟩ 5 []).feasible = true ↔
      (5:ℚ) ≤ 10 + 1.5 * (([] : List Initiative).length : ℚ))
    ∧ ((calculate_target_feasibility ⟨2, 10, []⟩ 5 []).feasible = true →
      (calculate_target_feasibility ⟨2, 10, []⟩ 5 []).gap = 0) :=
  C7_feasibility_iff ⟨2, 10, []⟩ 5 []

/-- C1 counterexample: a request with caller-supplied total_hours = 100 and
the default allocation, target 30 and maturity level 2 (so capping is
active), all initiatives fully mature, default benchmarks.  The Test
column's absolute effective-delta sum (1416.36 hours) vastly exceeds
cap_fraction × the REQUEST baseline (0.6 × 20 = 12 hours): the code caps
against the hardcoded 17054-hour reference baseline instead. -/
theorem C1_caller_baseline_cap_counterexample :
    20 < (30:ℚ) ∧ (2:ℚ) < 4 ∧
    ¬ (absColSum (applyCore sampleMatrix (fun _ => some 100) ⟨30, 2⟩
          INDUSTRY_BENCHMARKS) Phase.Test
        ≤ conservative_caps Phase.Test *
          calculate_baseline_hours 100 DEFAULT_PHASE_ALLOCATION Phase.Test) := by
  refine ⟨by norm_num, by norm_num, ?_⟩
  norm_num [absColSum, colSum, applyCore, boostedMatrix, maturityScaled,
    boostMultiplier, scalingFactors, capScale, sampleMatrix, sampleColumn,
    INITIATIVE_FALLBACK, INDUSTRY_BENCHMARKS, calculate_baseline_hours,
    DEFAULT_PHASE_ALLOCATION, conservative_caps, min_def, max_def,
    abs_eq_max_neg]

/-- C1 amended: whenever target > 20 and maturity level < 4 (with
nonnegative maturity percentages and benchmark fractions), each phase
column's absolute effective-delta sum is bounded by cap_fraction × that
phase's REFERENCE baseline hours — the ones the code hardcodes from total
hours 17054 and the default allocation — independent of the caller-supplied
total_hours and allocation. -/
theorem C1_cap_bounded_by_reference_baseline (ml : Initiative → Option ℚ)
    (b : Benchmarks) (T L : ℚ) (p : Phase)
    (hml : ∀ i m, ml i = some m → 0 ≤ m)
    (hb1 : 0 ≤ b.testing_phase_reduction) (hb2 : 0 ≤ b.quality_improvement)
    (hT : 20 < T) (hL : L < 4) :
    absColSum (applyCore sampleMatrix ml ⟨T, L⟩ b) p
      ≤ conservative_caps p *
        calculate_baseline_hours 17054 DEFAULT_PHASE_ALLOCATION p := by
  have happly : applyCore sampleMatrix ml ⟨T, L⟩ b
      = fun i q => boostedMatrix sampleMatrix ml ⟨T, L⟩ b i q *
          capScale (boostedMatrix sampleMatrix ml ⟨T, L⟩ b) q := by
    funext i q
    unfold applyCore
    rw [if_pos ⟨hT, hL⟩]
  rw [happly, mul_comm (conservative_caps p)]
  exact capped_column_bounded (boostedMatrix sampleMatrix ml ⟨T, L⟩ b) p
    (fun i => boostedMatrix_sample_nonpos ml ⟨T, L⟩ b hml hb1 hb2 i p)

/-- C1 witness: the amended cap bound at target 30, level 2, all
initiatives fully mature, default benchmarks, Test phase. -/
theorem C1_cap_bounded_by_reference_baseline_witness :
    (∀ i m, (fun _ : Initiative => some (100:ℚ)) i = some m → 0 ≤ m)
    ∧ 0 ≤ INDUSTRY_BENCHMARKS.testing_phase_reduction
    ∧ 0 ≤ INDUSTRY_BENCHMARKS.quality_improvement
    ∧ 20 < (30:ℚ) ∧ (2:ℚ) < 4
    ∧ absColSum (applyCore sampleMatrix (fun _ => some 100) ⟨30, 2⟩
          INDUSTRY_BENCHMARKS) Phase.Test
        ≤ conservative_caps Phase.Test *
          calculate_baseline_hours 17054 DEFAULT_PHASE_ALLOCATION Phase.Test := by
  have hml : ∀ i m, (fun _ : Initiative => some (100:ℚ)) i = some m → 0 ≤ m := by
    intro i m hm
    rw [Option.some.injEq] at hm
    rw [← hm]
    norm_num
  exact ⟨hml, by norm_num [INDUSTRY_BENCHMARKS],
    by norm_num [INDUSTRY_BENCHMARKS], by norm_num, by norm_num,
    C1_cap_bounded_by_reference_baseline (fun _ => some 100) INDUSTRY_BENCHMARKS
      30 2 Phase.Test hml (by norm_num [INDUSTRY_BENCHMARKS])
      (by norm_num [INDUSTRY_BENCHMARKS]) (by norm_num) (by norm_num)⟩

/-- C10: with maturity percentages in [0, 100], any target ≥ 0 and level
≥ 1, nonnegative total hours and allocation, and nonnegative benchmark
fractions, every phase's modeled hours stay at or below its baseline hours;
equivalently, with a nonnegative blended rate every phase's savings are
nonnegative. -/
theorem C10_modeled_le_baseline (ml : Initiative → Option ℚ) (b : Benchmarks)
    (T L total_hours : ℚ) (phase_allocation : Phase → ℚ)
    (hml : ∀ i m, ml i = some m → 0 ≤ m ∧ m ≤ 100)
    (hT : 0 ≤ T) (hL : 1 ≤ L) (hth : 0 ≤ total_hours)
    (halloc : ∀ q, 0 ≤ phase_allocation q)
    (hb1 : 0 ≤ b.testing_phase_reduction) (hb2 : 0 ≤ b.quality_improvement)
    (p : Phase) :
    (calculate_phase_hours total_hours phase_allocation
        (applyCore sampleMatrix ml ⟨T, L⟩ b)).2 p
      ≤ (calculate_phase_hours total_hours phase_allocation
        (applyCore sampleMatrix ml ⟨T, L⟩ b)).1 p
    ∧ ∀ blended_rate inc ca, 0 ≤ blended_rate →
      0 ≤ (calculate_costs_and_savings
          (calculate_phase_hours total_hours phase_allocation
            (applyCore sampleMatrix ml ⟨T, L⟩ b)).1
          (calculate_phase_hours total_hours phase_allocation
            (applyCore sampleMatrix ml ⟨T, L⟩ b)).2
          blended_rate inc ca).savings p := by
  have hml0 : ∀ i m, ml i = some m → 0 ≤ m := fun i m h => (hml i m h).1
  have hbase : 0 ≤ calculate_baseline_hours total_hours phase_allocation p := by
    unfold calculate_baseline_hours
    have := halloc p
    positivity
  have hcs : colSum (applyCore sampleMatrix ml ⟨T, L⟩ b) p ≤ 0 :=
    sum_map_nonpos INITIATIVE_FALLBACK _
      (fun i _ => applyCore_sample_nonpos ml ⟨T, L⟩ b hml0 hb1 hb2 i p)
  have hmain : (calculate_phase_hours total_hours phase_allocation
      (applyCore sampleMatrix ml ⟨T, L⟩ b)).2 p
      ≤ (calculate_phase_hours total_hours phase_allocation
      (applyCore sampleMatrix ml ⟨T, L⟩ b)).1 p := by
    unfold calculate_phase_hours
    simp only []
    apply max_le hbase
    linarith
  refine ⟨hmain, ?_⟩
  intro blended_rate inc ca hrate
  unfold calculate_costs_and_savings
  simp only []
  have := mul_le_mul_of_nonneg_right hmain hrate
  linarith

/-- C10 witness: the invariant at a concrete aggressive request (target 30,
level 2, all initiatives at 50, total 1000 hours, default allocation). -/
theorem C10_modeled_le_baseline_witness :
    (∀ i m, (fun _ : Initiative => some (50:ℚ)) i = some m → 0 ≤ m ∧ m ≤ 100)
    ∧ (0:ℚ) ≤ 30 ∧ (1:ℚ) ≤ 2 ∧ (0:ℚ) ≤ 1000
    ∧ (∀ q, 0 ≤ DEFAULT_PHASE_ALLOCATION q)
    ∧ 0 ≤ INDUSTRY_BENCHMARKS.testing_phase_reduction
    ∧ 0 ≤ INDUSTRY_BENCHMARKS.quality_improvement
    ∧ (calculate_phase_hours 1000 DEFAULT_PHASE_ALLOCATION
        (applyCore sampleMatrix (fun _ => some 50) ⟨30, 2⟩
          INDUSTRY_BENCHMARKS)).2 Phase.Test
      ≤ (calculate_phase_hours 1000 DEFAULT_PHASE_ALLOCATION
        (applyCore sampleMatrix (fun _ => some 50) ⟨30, 2⟩
          INDUSTRY_BENCHMARKS)).1 Phase.Test := by
  have hml : ∀ i m, (fun _ : Initiative => some (50:ℚ)) i = some m → 0 ≤ m ∧ m ≤ 100 := by
    intro i m hm
    rw [Option.some.injEq] at hm
    rw [← hm]
    norm_num
  have halloc : ∀ q, 0 ≤ DEFAULT_PHASE_ALLOCATION q := by
    intro q
    cases q <;> norm_num [DEFAULT_PHASE_ALLOCATION]
  exact ⟨hml, by norm_num, by norm_num, by norm_num, halloc,
    by norm_num [INDUSTRY_BENCHMARKS], by norm_num [INDUSTRY_BENCHMARKS],
    (C10_modeled_le_baseline (fun _ => some 50) INDUSTRY_BENCHMARKS 30 2 1000
      DEFAULT_PHASE_ALLOCATION hml (by norm_num) (by norm_num) (by norm_num)
      halloc (by norm_num [INDUSTRY_BENCHMARKS])
      (by norm_num [INDUSTRY_BENCHMARKS]) Phase.Test).1⟩

/-- C8: a successful apply_maturity_and_scenario call leaves the stored
seed matrix exactly as it was, and repeating the call on the returned state
reproduces the identical result — the method computes on a copy and holds
no hidden per-request state. -/
theorem C8_apply_preserves_seed (m : N2SEfficiencyModel)
    (ml : Initiative → Option ℚ) (cfg : ScenarioConfig)
    (b : Option Benchmarks) (r : Initiative → Phase → ℚ)
    (m' : N2SEfficiencyModel)
    (h : m.apply_maturity_and_scenario ml cfg b = Except.ok (r, m')) :
    m'.matrix_data = m.matrix_data
    ∧ m'.apply_maturity_and_scenario ml cfg b = Except.ok (r, m') := by
  unfold N2SEfficiencyModel.apply_maturity_and_scenario at h
  by_cases hl : m.loaded = false
  · rw [if_pos hl] at h
    exact absurd h (by simp)
  · rw [if_neg hl] at h
    cases hmd : m.matrix_data with
    | none =>
      rw [hmd] at h
      exact absurd h (by simp)
    | some md =>
      rw [hmd] at h
      simp only [Except.ok.injEq, Prod.mk.injEq] at h
      obtain ⟨hr, hm'⟩ := h
      constructor
      · rw [← hm']
        exact hmd
      · rw [← hm']
        unfold N2SEfficiencyModel.apply_maturity_and_scenario
        rw [if_neg hl, hmd]
        simp only [Except.ok.injEq, Prod.mk.injEq]
        exact ⟨hr, trivial⟩

/-- C8 witness: the frame property at a freshly loaded engine with a
concrete request. -/
theorem C8_apply_preserves_seed_witness :
    (N2SEfficiencyModel.create_sample_data
        N2SEfficiencyModel.init).apply_maturity_and_scenario
        (fun _ => some 50) ⟨15, 2⟩ none
      = Except.ok (applyCore sampleMatrix (fun _ => some 50) ⟨15, 2⟩
          INDUSTRY_BENCHMARKS,
          N2SEfficiencyModel.create_sample_data N2SEfficiencyModel.init)
    ∧ (N2SEfficiencyModel.create_sample_data
        N2SEfficiencyModel.init).matrix_data
      = (N2SEfficiencyModel.create_sample_data
        N2SEfficiencyModel.init).matrix_data
    ∧ (N2SEfficiencyModel.create_sample_data
        N2SEfficiencyModel.init).apply_maturity_and_scenario
        (fun _ => some 50) ⟨15, 2⟩ none
      = Except.ok (applyCore sampleMatrix (fun _ => some 50) ⟨15, 2⟩
          INDUSTRY_BENCHMARKS,
          N2SEfficiencyModel.create_sample_data N2SEfficiencyModel.init) := by
  have h : (N2SEfficiencyModel.create_sample_data
      N2SEfficiencyModel.init).apply_maturity_and_scenario
      (fun _ => some 50) ⟨15, 2⟩ none
      = Except.ok (applyCore sampleMatrix (fun _ => some 50) ⟨15, 2⟩
          INDUSTRY_BENCHMARKS,
          N2SEfficiencyModel.create_sample_data N2SEfficiencyModel.init) := rfl
  obtain ⟨h1, h2⟩ := C8_apply_preserves_seed _ _ _ _ _ _ h
  exact ⟨h, h1, h2⟩

/-- C2 counterexample: in the golden scenario (all initiatives at 50%,
target 15, level 3) the Test column of the effective delta matrix does NOT
sum to half the seed Test column: at target 15 the middle tier fires with
testing_boost 0.4 and quality_boost 0.275, multiplying the halved column by
1.18 × 1.055. -/
theorem C2_golden_test_column_counterexample :
    ¬ (calculate_baseline_hours 17054 DEFAULT_PHASE_ALLOCATION Phase.Test
        = 3410.8
      ∧ colSum (applyCore sampleMatrix (fun _ => some 50) ⟨15, 3⟩
          INDUSTRY_BENCHMARKS) Phase.Test
        = 1/2 * colSum sampleMatrix Phase.Test) := by
  rintro ⟨-, hcol⟩
  norm_num [colSum, applyCore, boostedMatrix, maturityScaled, boostMultiplier,
    scalingFactors, capScale, sampleMatrix, sampleColumn, INITIATIVE_FALLBACK,
    INDUSTRY_BENCHMARKS, min_def] at hcol

/-- C2 amended: in the golden scenario baseline_hours Test = 3410.8 as
claimed, but the tier for 10 < target ≤ 20 applies with testing_boost 0.4
and quality_boost 0.275, so the Test column sums to the maturity-halved seed
sum times (1 + 0.45·0.4)(1 + 0.20·0.275), i.e. -513.52125 rather than
-412.5. -/
theorem C2_golden_test_column :
    calculate_baseline_hours 17054 DEFAULT_PHASE_ALLOCATION Phase.Test = 3410.8
    ∧ (scalingFactors 15 3).testing_boost = 0.4
    ∧ (scalingFactors 15 3).quality_boost = 0.275
    ∧ colSum (applyCore sampleMatrix (fun _ => some 50) ⟨15, 3⟩
        INDUSTRY_BENCHMARKS) Phase.Test
      = (1 + 0.45 * 0.4) * ((1 + 0.20 * 0.275) *
          (1/2 * colSum sampleMatrix Phase.Test))
    ∧ colSum (applyCore sampleMatrix (fun _ => some 50) ⟨15, 3⟩
        INDUSTRY_BENCHMARKS) Phase.Test = -(410817/800) := by
  refine ⟨?_, ?_, ?_, ?_, ?_⟩
  · norm_num [calculate_baseline_hours, DEFAULT_PHASE_ALLOCATION]
  · norm_num [scalingFactors]
  · norm_num [scalingFactors]
  · norm_num [colSum, applyCore, boostedMatrix, maturityScaled,
      boostMultiplier, scalingFactors, capScale, sampleMatrix, sampleColumn,
      INITIATIVE_FALLBACK, INDUSTRY_BENCHMARKS, min_def]
  · norm_num [colSum, applyCore, boostedMatrix, maturityScaled,
      boostMultiplier, scalingFactors, capScale, sampleMatrix, sampleColumn,
      INITIATIVE_FALLBACK, INDUSTRY_BENCHMARKS, min_def]

/-- C3 counterexample: invoking generate_initiative_impact_table on a fresh
(unloaded) engine with a positive-maturity mapping does not raise the
uninitialized-engine error — it dereferences the None seed matrix and dies
with an AttributeError instead. -/
theorem C3_impact_table_no_uninitialized_check :
    N2SEfficiencyModel.init.generate_initiative_impact_table sampleMatrix
        (fun _ => some 50) 100 true none
      = Except.error (EngineError.attributeError
          "NoneType object has no attribute loc")
    ∧ is_uninitialized_error
        (N2SEfficiencyModel.init.generate_initiative_impact_table sampleMatrix
          (fun _ => some 50) 100 true none) = false := by
  constructor <;> rfl

/-- C3 amended: before the seed matrix is loaded,
apply_maturity_and_scenario raises the uninitialized-engine error, but
generate_initiative_impact_table performs no such check: it always fails
with a different error (an AttributeError, or a KeyError when no initiative
has positive maturity), never the uninitialized-engine one. -/
theorem C3_only_apply_checks_loaded (ml : Initiative → Option ℚ)
    (cfg : ScenarioConfig) (b : Option Benchmarks)
    (eff : Initiative → Phase → ℚ) (blended_rate : ℚ) (inc : Bool)
    (ca : Option CostAvoidanceConfig) :
    N2SEfficiencyModel.init.apply_maturity_and_scenario ml cfg b
      = Except.error (EngineError.uninitializedEngine
          "Matrix data not loaded. Call create_sample_data() first.")
    ∧ is_error_result (N2SEfficiencyModel.init.generate_initiative_impact_table
        eff ml blended_rate inc ca) = true
    ∧ is_uninitialized_error
        (N2SEfficiencyModel.init.generate_initiative_impact_table
          eff ml blended_rate inc ca) = false := by
  refine ⟨rfl, ?_, ?_⟩ <;>
  · unfold N2SEfficiencyModel.generate_initiative_impact_table
      N2SEfficiencyModel.init
    cases hq : (qualifying_initiatives ml).isEmpty <;>
      simp [is_error_result, is_uninitialized_error, hq]

/-- C9: an initiative absent from the maturity_levels dict keeps its seed
row unscaled in apply_maturity_and_scenario — exactly as if it were present
at 100% maturity, boosts, caps and column sums included — while
generate_initiative_impact_table excludes that same initiative from the
impact rows, as if its maturity were 0. -/
theorem C9_absent_initiative_asymmetry (ml : Initiative → Option ℚ)
    (cfg : ScenarioConfig) (b : Benchmarks)
    (md eff : Initiative → Phase → ℚ) (blended_rate : ℚ) (inc : Bool)
    (ca : Option CostAvoidanceConfig) (i : Initiative) (h : ml i = none) :
    (∀ p, maturityScaled sampleMatrix ml i p = sampleMatrix i p)
    ∧ applyCore sampleMatrix ml cfg b
        = applyCore sampleMatrix (Function.update ml i (some 100)) cfg b
    ∧ (∀ r ∈ sortRowsByImpact
        (initiative_impact_rows md eff ml blended_rate inc ca),
        r.initiative ≠ i) := by
  have hms : maturityScaled sampleMatrix ml
      = maturityScaled sampleMatrix (Function.update ml i (some 100)) := by
    funext j p
    unfold maturityScaled
    by_cases hj : j = i
    · subst hj
      rw [h, Function.update_same]
      norm_num
    · rw [Function.update_noteq hj]
  refine ⟨?_, ?_, ?_⟩
  · intro p
    unfold maturityScaled
    rw [h]
  · have hbst : boostedMatrix sampleMatrix ml cfg b
        = boostedMatrix sampleMatrix (Function.update ml i (some 100)) cfg b := by
      funext j p
      unfold boostedMatrix
      rw [hms]
    funext j p
    unfold applyCore
    rw [hbst]
  · intro r hr hri
    have hr' := mem_sortRowsByImpact hr
    unfold initiative_impact_rows at hr'
    rw [List.mem_map] at hr'
    obtain ⟨j, hj, hrj⟩ := hr'
    unfold qualifying_initiatives at hj
    rw [List.mem_filter] at hj
    have hproj : (impactRow md eff ml blended_rate inc ca j).initiative = j :=
      rfl
    rw [hrj] at hproj
    have hji : j = i := hproj.symm.trans hri
    have hpos := hj.2
    rw [hji, h] at hpos
    simp at hpos

/-- C9 witness: the asymmetry at a mapping that omits EDCC and maps every
other initiative to 50. -/
theorem C9_absent_initiative_asymmetry_witness :
    ((fun j => if j = Initiative.EDCC then none else some (50:ℚ))
        Initiative.EDCC = none)
    ∧ ((∀ p, maturityScaled sampleMatrix
          (fun j => if j = Initiative.EDCC then none else some (50:ℚ))
          Initiative.EDCC p
        = sampleMatrix Initiative.EDCC p)
      ∧ applyCore sampleMatrix
          (fun j => if j = Initiative.EDCC then none else some (50:ℚ)) ⟨15, 3⟩
          INDUSTRY_BENCHMARKS
        = applyCore sampleMatrix
          (Function.update
            (fun j => if j = Initiative.EDCC then none else some (50:ℚ))
            Initiative.EDCC (some 100)) ⟨15, 3⟩ INDUSTRY_BENCHMARKS
      ∧ (∀ r ∈ sortRowsByImpact (initiative_impact_rows sampleMatrix
          sampleMatrix
          (fun j => if j = Initiative.EDCC then none else some (50:ℚ)) 100
          true none),
          r.initiative ≠ Initiative.EDCC)) :=
  ⟨rfl, C9_absent_initiative_asymmetry
    (fun j => if j = Initiative.EDCC then none else some (50:ℚ)) ⟨15, 3⟩
    INDUSTRY_BENCHMARKS sampleMatrix sampleMatrix 100 true none
    Initiative.EDCC rfl⟩

end N2S
